import Mathlib

/-!
Verification of the user-account service of USTC-Software-2018-BE-Test.

The repository ships two source files: `login/models.py` (a Django `User`
model with field constraints) and `user/tests.py` (the test suite of the
user app).  The request handlers, credential validators and error table of
the `user` app are part of this repository but are not among the given
sources, so they are modelled here from the specification and from the
behaviour the tests pin down (error messages, the code 110, the
`is_recent` tolerance).  The `login/models.py` field declarations are
embedded directly from that file.
-/

namespace BeTest

/-- Modelled from the spec: the error taxonomy of section 7 (`user/errors.py`
is not among the given sources).  Each kind is a distinct enumerated value
with a stable code and message. -/
inductive Err where
  | success
  | insufficientArguments
  | usernameTooLong
  | illegalUsername
  | passwordTooLong
  | illegalPassword
  | passwordTooSimple
  | usernameTaken
  | userNotExists
  | invalidCreds
  | alreadyLoggedIn
  | notLoggedIn
  deriving DecidableEq, Repr

/-- Modelled from the spec: numeric error codes.  The sources fix only
`0` for success and `110` for "username too long" (tests.py lines 72-73);
the remaining codes are arbitrary distinct values. -/
def Err.code : Err → Nat
  | .success => 0
  | .insufficientArguments => 100
  | .usernameTooLong => 110
  | .illegalUsername => 111
  | .passwordTooLong => 120
  | .illegalPassword => 121
  | .passwordTooSimple => 122
  | .usernameTaken => 130
  | .userNotExists => 201
  | .invalidCreds => 202
  | .alreadyLoggedIn => 203
  | .notLoggedIn => 204

/-- Error messages.  Those for the validator failures and success are pinned
by `user/tests.py` (assertContains checks); the rest are modelled from the
spec's error names. -/
def Err.msg : Err → String
  | .success => "success"
  | .insufficientArguments => "Insufficient arguments"
  | .usernameTooLong => "This username is too long"
  | .illegalUsername => "This username contains illegal characters"
  | .passwordTooLong => "This password is too long"
  | .illegalPassword => "This password contains illegal characters"
  | .passwordTooSimple => "This password is too simple"
  | .usernameTaken => "This username is already taken"
  | .userNotExists => "This user does not exist"
  | .invalidCreds => "Invalid credentials"
  | .alreadyLoggedIn => "Already logged in"
  | .notLoggedIn => "Not logged in"

/-- A persistent user record of the `user` app: username, stored password
hash, email, last-login audit fields.  Timestamps are naturals (seconds). -/
structure User where
  id : Nat
  username : String
  password : String
  email : String
  lastLoginTime : Option Nat
  lastLoginIp : Option String
  deriving DecidableEq, Repr

/-- The per-user Profile record: one-to-one with User via `userId`,
carrying the last-logout audit fields, nullable until the first logout. -/
structure Profile where
  userId : Nat
  lastLogoutTime : Option Nat
  lastLogoutIp : Option String
  deriving DecidableEq, Repr

/-- Session state: `anonymous`, or `authenticated user_id`. -/
inductive Session where
  | anonymous
  | authenticated (userId : Nat)
  deriving DecidableEq, Repr

/-- A form-encoded request: each field is present (`some`) or missing. -/
structure Request where
  username : Option String := none
  password : Option String := none
  email : Option String := none
  deriving DecidableEq, Repr

/-- A JSON response together with its transport status.  The logical
outcome is the `err` field (rendered as `err_code`/`err_msg` below); the
profile endpoint additionally fills `username`. -/
structure Response where
  status : Nat
  err : Err
  username : String := ""
  deriving DecidableEq, Repr

/-- The rendered `err_code` JSON field of a response. -/
def Response.err_code (r : Response) : Nat := r.err.code

/-- The rendered `err_msg` JSON field of a response. -/
def Response.err_msg (r : Response) : String := r.err.msg

/-- Every handler renders its outcome as JSON with transport status 200
(Django's JsonResponse default), per the spec's compatibility contract. -/
def jsonResponse (e : Err) : Response :=
  { status := 200, err := e, username := "" }

/-- Modelled from the spec: a salted one-way hash (the source hides the
hashing detail behind Django; only that verification is hash comparison
matters here, so any injective function is a faithful model). -/
def hashPw (s : String) : String :=
  String.append "pbkdf2$" s

/-- Modelled from the spec: maximum username length ("e.g. >100 chars"). -/
def maxUsernameLength : Nat := 100

/-- Modelled from the spec: allowed username characters — alphanumeric
plus limited punctuation. -/
def usernameCharOk (c : Char) : Bool :=
  c.isAlphanum || c = '-' || c = '_' || c = '.'

/-- Modelled from the spec: `validate_username` — required non-empty,
maximum length, then allowed character class, in that order. -/
def validate_username (s : String) : Option Err :=
  if s.length = 0 then some .illegalUsername
  else if maxUsernameLength < s.length then some .usernameTooLong
  else if s.data.all usernameCharOk then none
  else some .illegalUsername

/-- Modelled from the spec: maximum password length cap (the sources fix
no number; 256 matches the storage cap of `login/models.py`). -/
def maxPasswordLength : Nat := 256

/-- Modelled from the spec: allowed password characters — ASCII-range
printable only. -/
def passwordCharOk (c : Char) : Bool :=
  0x20 ≤ c.toNat && c.toNat ≤ 0x7e

/-- Modelled from the spec: minimum-strength length threshold ("'1' is
too simple"; the exact heuristic is an open question of the spec). -/
def minPasswordLength : Nat := 6

/-- Modelled from the spec: `validate_password` — maximum length cap,
then allowed character set, then the minimum-strength heuristic (which
also rejects the empty password). -/
def validate_password (s : String) : Option Err :=
  if maxPasswordLength < s.length then some .passwordTooLong
  else if s.data.all passwordCharOk then
    if s.length < minPasswordLength then some .passwordTooSimple else none
  else some .illegalPassword

/-- `find_by_username` of the Account Store: first record matching. -/
def findByUsername : List User → String → Option User
  | [], _ => none
  | x :: xs, u => if x.username == u then some x else findByUsername xs u

/-- Look up a user record by id. -/
def findById : List User → Nat → Option User
  | [], _ => none
  | x :: xs, uid => if x.id == uid then some x else findById xs uid

/-- Look up the Profile paired with a user id. -/
def findProfile : List Profile → Nat → Option Profile
  | [], _ => none
  | pr :: prs, uid => if pr.userId == uid then some pr else findProfile prs uid

/-- `update_login_stamp`: write timestamp and IP onto the last-login
fields of the first record with the given username. -/
def setLastLogin (users : List User) (u : String) (now : Nat) (ip : String) : List User :=
  match users with
  | [] => []
  | x :: xs =>
    if x.username == u then
      { x with lastLoginTime := some now, lastLoginIp := some ip } :: xs
    else
      x :: setLastLogin xs u now ip

/-- `update_logout_stamp`: write timestamp and IP onto the last-logout
fields of the first Profile with the given user id. -/
def setLastLogout (profiles : List Profile) (uid : Nat) (now : Nat) (ip : String) : List Profile :=
  match profiles with
  | [] => []
  | pr :: prs =>
    if pr.userId == uid then
      { pr with lastLogoutTime := some now, lastLogoutIp := some ip } :: prs
    else
      pr :: setLastLogout prs uid now ip

/-- The state a request handler sees: the Account Store (users and
profiles), the client's session, and the id counter of the store. -/
structure SysState where
  users : List User
  profiles : List Profile
  session : Session
  nextId : Nat
  deriving DecidableEq, Repr

/-- Modelled from the spec: the registration flow of section 4.3,
parametrised by the two credential validators so that what runs before
them is visible.  Steps: (1) reject if authenticated, independent of the
supplied fields; (2) require both username and password present;
(3) validate username then password, short-circuiting; (4) reject a taken
username; (5) create the User and its paired empty Profile. -/
def registerWith (vu vp : String → Option Err) (st : SysState) (req : Request) :
    SysState × Response :=
  match st.session with
  | .authenticated _ => (st, jsonResponse .alreadyLoggedIn)
  | .anonymous =>
    match req.username, req.password with
    | some u, some p =>
      match vu u with
      | some e => (st, jsonResponse e)
      | none =>
        match vp p with
        | some e => (st, jsonResponse e)
        | none =>
          match findByUsername st.users u with
          | some _ => (st, jsonResponse .usernameTaken)
          | none =>
            let user : User :=
              { id := st.nextId, username := u, password := hashPw p,
                email := req.email.getD "", lastLoginTime := none, lastLoginIp := none }
            let prof : Profile :=
              { userId := st.nextId, lastLogoutTime := none, lastLogoutIp := none }
            ({ st with users := st.users ++ [user],
                       profiles := st.profiles ++ [prof],
                       nextId := st.nextId + 1 },
             jsonResponse .success)
    | _, _ => (st, jsonResponse .insufficientArguments)

/-- The `/user/register` handler, with the concrete validators. -/
def register (st : SysState) (req : Request) : SysState × Response :=
  registerWith validate_username validate_password st req

/-- Modelled from the spec: the `/user/login` handler.  If authenticated,
fail with AlreadyLoggedIn regardless of the supplied credentials; require
both fields; look up by username (UserNotExists if absent); compare the
password hash (InvalidCreds on mismatch); on success record timestamp and
client IP onto the last-login fields and authenticate the session. -/
def login (st : SysState) (req : Request) (now : Nat) (ip : String) :
    SysState × Response :=
  match st.session with
  | .authenticated _ => (st, jsonResponse .alreadyLoggedIn)
  | .anonymous =>
    match req.username, req.password with
    | some u, some p =>
      match findByUsername st.users u with
      | none => (st, jsonResponse .userNotExists)
      | some user =>
        if user.password == hashPw p then
          ({ st with users := setLastLogin st.users u now ip,
                     session := .authenticated user.id },
           jsonResponse .success)
        else
          (st, jsonResponse .invalidCreds)
    | _, _ => (st, jsonResponse .insufficientArguments)

/-- Modelled from the spec: the `/user/logout` handler.  From anonymous,
fail with NotLoggedIn; from authenticated, record timestamp and IP onto
the Profile's last-logout fields and clear the session. -/
def logout (st : SysState) (now : Nat) (ip : String) : SysState × Response :=
  match st.session with
  | .anonymous => (st, jsonResponse .notLoggedIn)
  | .authenticated uid =>
    ({ st with profiles := setLastLogout st.profiles uid now ip,
               session := .anonymous },
     jsonResponse .success)

/-- Modelled from the spec: the `/user/profile` handler.  When not
authenticated it returns NotLoggedIn together with an empty username
field; when authenticated it returns success and the username. -/
def profileView (st : SysState) : Response :=
  match st.session with
  | .anonymous => { status := 200, err := .notLoggedIn, username := "" }
  | .authenticated uid =>
    match findById st.users uid with
    | some u => { status := 200, err := .success, username := u.username }
    | none => { status := 200, err := .notLoggedIn, username := "" }

/-- `is_recent` of `user/tests.py` (lines 32-34): a timestamp is recent
when it plus a 5-second tolerance is still in the future. -/
def is_recent (t : Nat) (now : Nat) : Bool :=
  decide (now < t + 5)

/-- A Django CharField declaration: its storage cap and uniqueness flag. -/
structure CharField where
  max_length : Nat
  unique : Bool
  deriving DecidableEq, Repr

/-- `login/models.py` line 6: `username = models.CharField(max_length = 128, unique=True)`. -/
def loginUser_username_field : CharField :=
  { max_length := 128, unique := true }

/-- `login/models.py` line 7: `password = models.CharField(max_length = 256)`
(Django's `unique` defaults to False). -/
def loginUser_password_field : CharField :=
  { max_length := 256, unique := false }

/-- A string fits a CharField when its length is within the storage cap. -/
def CharField.accepts (f : CharField) (s : String) : Bool :=
  decide (s.length ≤ f.max_length)

/-- The user `john` of the test fixture (`tests.py` setUp). -/
def johnUser : User :=
  { id := 1, username := "john", password := hashPw "thisisjohnspw",
    email := "john@example.org", lastLoginTime := none, lastLoginIp := none }

/-- John's paired empty Profile. -/
def johnProfile : Profile :=
  { userId := 1, lastLogoutTime := none, lastLogoutIp := none }

/-- An anonymous-session state holding the john fixture. -/
def baseState : SysState :=
  { users := [johnUser], profiles := [johnProfile],
    session := .anonymous, nextId := 2 }

/-- The same store with the session already authenticated as john. -/
def authState : SysState :=
  { baseState with session := .authenticated 1 }

/-- C1: a session that is already authenticated answers both `register`
and `login` with AlreadyLoggedIn, for every request (valid or invalid
credentials alike), leaving the state unchanged — in particular the
credentials are never re-checked. -/
theorem authenticated_rejects_register_and_login
    (st : SysState) (uid : Nat) (req1 req2 : Request) (now : Nat) (ip : String)
    (h : st.session = Session.authenticated uid) :
    register st req1 = (st, jsonResponse Err.alreadyLoggedIn) ∧
    login st req2 now ip = (st, jsonResponse Err.alreadyLoggedIn) := by
  unfold register registerWith login
  rw [h]
  exact ⟨rfl, rfl⟩

/-- Witness for C1: john's authenticated session rejects a fresh
registration and a re-login with the correct password. -/
theorem authenticated_rejects_register_and_login_witness :
    authState.session = Session.authenticated 1 ∧
    register authState { username := some "jack2", password := some "He-lLo2333!" }
      = (authState, jsonResponse Err.alreadyLoggedIn) ∧
    login authState { username := some "john", password := some "thisisjohnspw" } 7 "1.2.3.4"
      = (authState, jsonResponse Err.alreadyLoggedIn) :=
  ⟨rfl,
   (authenticated_rejects_register_and_login authState 1
      { username := some "jack2", password := some "He-lLo2333!" }
      { username := some "john", password := some "thisisjohnspw" } 7 "1.2.3.4" rfl).1,
   (authenticated_rejects_register_and_login authState 1
      { username := some "jack2", password := some "He-lLo2333!" }
      { username := some "john", password := some "thisisjohnspw" } 7 "1.2.3.4" rfl).2⟩

/-- C2 counterexample: the claim quantifies over every request with a
missing field, but from an already-authenticated session such a request
is answered AlreadyLoggedIn (the spec's step 1 precedes the field check),
not InsufficientArguments. -/
theorem missing_fields_not_always_insufficient :
    (register authState {}).2 = jsonResponse Err.alreadyLoggedIn ∧
    (login authState {} 0 "").2 = jsonResponse Err.alreadyLoggedIn ∧
    jsonResponse Err.alreadyLoggedIn ≠ jsonResponse Err.insufficientArguments := by
  refine ⟨rfl, rfl, ?_⟩
  decide

/-- C2 (amended): for every register or login request from a session that
is NOT authenticated in which username or password is missing, the
response is InsufficientArguments; for register this holds for every pair
of validators, i.e. the field check happens before any validator runs. -/
theorem anonymous_missing_fields_insufficient
    (vu vp : String → Option Err) (st : SysState) (req : Request)
    (now : Nat) (ip : String)
    (hsess : st.session = Session.anonymous)
    (hmiss : req.username = none ∨ req.password = none) :
    (registerWith vu vp st req).2 = jsonResponse Err.insufficientArguments ∧
    (login st req now ip).2 = jsonResponse Err.insufficientArguments := by
  unfold registerWith login
  obtain ⟨ru, rp, re⟩ := req
  rw [hsess]
  rcases hmiss with h | h <;> subst h
  · cases rp <;> exact ⟨rfl, rfl⟩
  · cases ru <;> exact ⟨rfl, rfl⟩

/-- Witness for C2: the empty request from an anonymous session. -/
theorem anonymous_missing_fields_insufficient_witness :
    (registerWith validate_username validate_password baseState {}).2
      = jsonResponse Err.insufficientArguments ∧
    (login baseState {} 0 "").2 = jsonResponse Err.insufficientArguments :=
  anonymous_missing_fields_insufficient validate_username validate_password
    baseState {} 0 "" rfl (Or.inl rfl)

/-- C3: a login attempt from the Anonymous state with both fields present
is discriminated as UserNotExists when the username is absent from the
store, InvalidCreds when the user exists but the password hash mismatches,
and otherwise succeeds with the session transitioning to
Authenticated(user_id). -/
theorem anonymous_login_discrimination
    (st : SysState) (req : Request) (now : Nat) (ip : String) (u p : String)
    (hsess : st.session = Session.anonymous)
    (hu : req.username = some u) (hp : req.password = some p) :
    (findByUsername st.users u = none →
      login st req now ip = (st, jsonResponse Err.userNotExists)) ∧
    (∀ user, findByUsername st.users u = some user → user.password ≠ hashPw p →
      login st req now ip = (st, jsonResponse Err.invalidCreds)) ∧
    (∀ user, findByUsername st.users u = some user → user.password = hashPw p →
      (login st req now ip).2 = jsonResponse Err.success ∧
      (login st req now ip).1.session = Session.authenticated user.id) := by
  have hgoal : login st req now ip =
      match findByUsername st.users u with
      | none => (st, jsonResponse Err.userNotExists)
      | some user =>
        if user.password == hashPw p then
          ({ st with users := setLastLogin st.users u now ip,
                     session := Session.authenticated user.id },
           jsonResponse Err.success)
        else (st, jsonResponse Err.invalidCreds) := by
    unfold login
    rw [hsess, hu, hp]
  refine ⟨?_, ?_, ?_⟩
  · intro hnone
    rw [hgoal, hnone]
  · intro user hfind hne
    simp only [hgoal, hfind]
    rw [if_neg (by simpa using hne)]
  · intro user hfind heq
    simp only [hgoal, hfind]
    rw [if_pos (by simpa using heq)]
    exact ⟨rfl, rfl⟩

/-- Witness for C3: john logs in with the right password and the session
becomes Authenticated(1). -/
theorem anonymous_login_discrimination_witness :
    (login baseState { username := some "john", password := some "thisisjohnspw" }
        10 "1.2.3.4").2 = jsonResponse Err.success ∧
    (login baseState { username := some "john", password := some "thisisjohnspw" }
        10 "1.2.3.4").1.session = Session.authenticated 1 :=
  (anonymous_login_discrimination baseState
      { username := some "john", password := some "thisisjohnspw" }
      10 "1.2.3.4" "john" "thisisjohnspw" rfl rfl rfl).2.2 johnUser rfl rfl

/-- C4: every response of every endpoint carries transport status 200,
whatever the state, the request and the logical outcome; the outcome lives
only in the err field rendered as err_code/err_msg. -/
theorem responses_transport_status_200
    (st : SysState) (req : Request) (now : Nat) (ip : String) :
    (register st req).2.status = 200 ∧
    (login st req now ip).2.status = 200 ∧
    (logout st now ip).2.status = 200 ∧
    (profileView st).status = 200 := by
  obtain ⟨users, profiles, session, nextId⟩ := st
  obtain ⟨ru, rp, re⟩ := req
  refine ⟨?_, ?_, ?_, ?_⟩ <;>
    simp only [register, registerWith, login, logout, profileView] <;>
    cases session <;> cases ru <;> cases rp <;>
    (repeat' split) <;> rfl

/-- C5: from an anonymous session, logout answers NotLoggedIn (leaving
the state unchanged) and the profile endpoint answers NotLoggedIn with an
empty username field. -/
theorem anonymous_logout_and_profile_not_logged_in
    (st : SysState) (now : Nat) (ip : String)
    (h : st.session = Session.anonymous) :
    logout st now ip = (st, jsonResponse Err.notLoggedIn) ∧
    (profileView st).err = Err.notLoggedIn ∧
    (profileView st).username = "" := by
  unfold logout profileView
  rw [h]
  exact ⟨rfl, rfl, rfl⟩

/-- Witness for C5: a fresh anonymous client. -/
theorem anonymous_logout_and_profile_not_logged_in_witness :
    logout baseState 3 "1.2.3.4" = (baseState, jsonResponse Err.notLoggedIn) ∧
    (profileView baseState).err = Err.notLoggedIn ∧
    (profileView baseState).username = "" :=
  anonymous_logout_and_profile_not_logged_in baseState 3 "1.2.3.4" rfl

/-- A 1000-character username, as in `test_register_username_too_long`. -/
def longName1000 : String := String.mk (List.replicate 1000 'a')

/-- A 101-character username, just over the maximum. -/
def longName101 : String := String.mk (List.replicate 101 'a')

/-- A 300-character password of non-ASCII characters. -/
def longNonAsciiPw : String := String.mk (List.replicate 300 'あ')

/-- C6 counterexample: the claim quantifies over every registration with
an over-long username, but an authenticated session is answered
AlreadyLoggedIn and a request additionally missing the password is
answered InsufficientArguments — neither is UsernameTooLong. -/
theorem username_too_long_not_always_rejected :
    (register authState
        { username := some longName1000, password := some "He-lLo-123" }).2.err
      = Err.alreadyLoggedIn ∧
    (register baseState { username := some longName1000 }).2.err
      = Err.insufficientArguments ∧
    Err.alreadyLoggedIn ≠ Err.usernameTooLong ∧
    Err.insufficientArguments ≠ Err.usernameTooLong := by
  refine ⟨rfl, rfl, by decide, by decide⟩

/-- C6 (amended): a registration from a not-authenticated session with
both fields present whose username exceeds the maximum length is rejected
with UsernameTooLong — numeric code 110, message "This username is too
long" — and the state, in particular the Account Store, is unchanged. -/
theorem anonymous_register_username_too_long
    (st : SysState) (req : Request) (u p : String)
    (hsess : st.session = Session.anonymous)
    (hu : req.username = some u) (hp : req.password = some p)
    (hlen : maxUsernameLength < u.length) :
    (register st req).2.err = Err.usernameTooLong ∧
    Err.code Err.usernameTooLong = 110 ∧
    Err.msg Err.usernameTooLong = "This username is too long" ∧
    (register st req).1 = st := by
  have hvu : validate_username u = some Err.usernameTooLong := by
    unfold validate_username
    rw [if_neg (by omega), if_pos hlen]
  have hreg : register st req = (st, jsonResponse Err.usernameTooLong) := by
    unfold register registerWith
    rw [hsess, hu, hp]
    simp only [hvu]
  rw [hreg]
  exact ⟨rfl, rfl, rfl, rfl⟩

/-- Witness for C6: a 101-character username from an anonymous session. -/
theorem anonymous_register_username_too_long_witness :
    (register baseState
        { username := some longName101, password := some "He-lLo-123" }).2.err
      = Err.usernameTooLong ∧
    Err.code Err.usernameTooLong = 110 ∧
    Err.msg Err.usernameTooLong = "This username is too long" ∧
    (register baseState
        { username := some longName101, password := some "He-lLo-123" }).1
      = baseState :=
  anonymous_register_username_too_long baseState
    { username := some longName101, password := some "He-lLo-123" }
    longName101 "He-lLo-123" rfl rfl rfl (by decide)

set_option maxRecDepth 4000 in
/-- C7 counterexample: the claim quantifies over every registration whose
password has disallowed characters, but a 300-character non-ASCII
password is rejected with PasswordTooLong (the length cap is checked
before the character set), not IllegalPassword. -/
theorem illegal_password_not_always_rejected :
    (register baseState
        { username := some "hello", password := some longNonAsciiPw }).2.err
      = Err.passwordTooLong ∧
    longNonAsciiPw.data.all passwordCharOk = false ∧
    Err.passwordTooLong ≠ Err.illegalPassword := by
  refine ⟨rfl, by decide, by decide⟩

/-- C7 (amended): a registration from a not-authenticated session with
both fields present, a username that passes validation and a password
within the length cap whose characters include a disallowed (non-ASCII or
non-printable) one is rejected with IllegalPassword — message "This
password contains illegal characters" — before any store mutation: the
state is unchanged. -/
theorem anonymous_register_illegal_password
    (st : SysState) (req : Request) (u p : String)
    (hsess : st.session = Session.anonymous)
    (hu : req.username = some u) (hp : req.password = some p)
    (hvu : validate_username u = none)
    (hlen : p.length ≤ maxPasswordLength)
    (hbad : p.data.all passwordCharOk = false) :
    (register st req).2.err = Err.illegalPassword ∧
    Err.msg Err.illegalPassword = "This password contains illegal characters" ∧
    (register st req).1 = st := by
  have hvp : validate_password p = some Err.illegalPassword := by
    unfold validate_password
    rw [if_neg (by omega), if_neg (by simp [hbad])]
  have hreg : register st req = (st, jsonResponse Err.illegalPassword) := by
    unfold register registerWith
    rw [hsess, hu, hp]
    simp only [hvu, hvp]
  rw [hreg]
  exact ⟨rfl, rfl, rfl⟩

/-- Witness for C7: a password with CJK characters, within the length
cap, behind a valid username. -/
theorem anonymous_register_illegal_password_witness :
    (register baseState
        { username := some "hello", password := some "Hello你好" }).2.err
      = Err.illegalPassword ∧
    Err.msg Err.illegalPassword = "This password contains illegal characters" ∧
    (register baseState
        { username := some "hello", password := some "Hello你好" }).1
      = baseState :=
  anonymous_register_illegal_password baseState
    { username := some "hello", password := some "Hello你好" }
    "hello" "Hello你好" rfl rfl rfl (by decide) (by decide) (by decide)

/-- After `setLastLogin`, looking up the stamped username finds the same
record with its last-login fields overwritten. -/
theorem findByUsername_setLastLogin (users : List User) (u : String) (now : Nat) (ip : String) :
    findByUsername (setLastLogin users u now ip) u =
      (findByUsername users u).map
        (fun x => { x with lastLoginTime := some now, lastLoginIp := some ip }) := by
  induction users with
  | nil => rfl
  | cons x xs ih =>
    unfold setLastLogin
    cases hx : x.username == u
    · rw [if_neg (by simp [hx])]
      simp only [findByUsername]
      rw [if_neg (by simp [hx]), if_neg (by simp [hx])]
      exact ih
    · rw [if_pos (by simp [hx])]
      simp only [findByUsername]
      rw [if_pos (by simp [hx]), if_pos (by simp [hx])]
      rfl

/-- After `setLastLogout`, looking up the stamped user id finds the same
Profile with its last-logout fields overwritten. -/
theorem findProfile_setLastLogout (profiles : List Profile) (uid : Nat) (now : Nat) (ip : String) :
    findProfile (setLastLogout profiles uid now ip) uid =
      (findProfile profiles uid).map
        (fun pr => { pr with lastLogoutTime := some now, lastLogoutIp := some ip }) := by
  induction profiles with
  | nil => rfl
  | cons pr prs ih =>
    unfold setLastLogout
    cases hx : pr.userId == uid
    · rw [if_neg (by simp [hx])]
      simp only [findProfile]
      rw [if_neg (by simp [hx]), if_neg (by simp [hx])]
      exact ih
    · rw [if_pos (by simp [hx])]
      simp only [findProfile]
      rw [if_pos (by simp [hx]), if_pos (by simp [hx])]
      rfl

/-- The login handler never touches the Profile table, whatever its
outcome. -/
theorem login_preserves_profiles (st : SysState) (req : Request) (now : Nat) (ip : String) :
    (login st req now ip).1.profiles = st.profiles := by
  obtain ⟨users, profiles, session, nextId⟩ := st
  obtain ⟨ru, rp, re⟩ := req
  simp only [login]
  cases session <;> cases ru <;> cases rp <;> (repeat' split) <;> rfl

/-- C8: a successful login stamps the user's last-login time with the
time of the call — hence within the 5-second `is_recent` tolerance — and
the last-login IP with the client IP, which is non-empty. -/
theorem login_success_sets_last_login
    (st : SysState) (req : Request) (now : Nat) (ip : String)
    (u p : String) (user : User)
    (hsess : st.session = Session.anonymous)
    (hu : req.username = some u) (hp : req.password = some p)
    (hfind : findByUsername st.users u = some user)
    (hpw : user.password = hashPw p)
    (hip : ip ≠ "") :
    (login st req now ip).2 = jsonResponse Err.success ∧
    ∃ u2, findByUsername (login st req now ip).1.users u = some u2 ∧
      u2.lastLoginTime = some now ∧
      is_recent now now = true ∧
      u2.lastLoginIp = some ip ∧ ip ≠ "" := by
  have hlogin : login st req now ip =
      ({ st with users := setLastLogin st.users u now ip,
                 session := Session.authenticated user.id },
       jsonResponse Err.success) := by
    unfold login
    rw [hsess, hu, hp]
    simp only [hfind]
    rw [if_pos (by simp [hpw])]
  refine ⟨by rw [hlogin], ?_⟩
  refine ⟨{ user with lastLoginTime := some now, lastLoginIp := some ip },
          ?_, rfl, ?_, rfl, hip⟩
  · simp only [hlogin]
    rw [findByUsername_setLastLogin, hfind]
    rfl
  · simp only [is_recent, decide_eq_true_eq]
    omega

/-- The login request of the john fixture. -/
def johnLoginReq : Request :=
  { username := some "john", password := some "thisisjohnspw" }

/-- Witness for C8: john logs in at time 10 from 1.2.3.4. -/
theorem login_success_sets_last_login_witness :
    (login baseState johnLoginReq 10 "1.2.3.4").2 = jsonResponse Err.success ∧
    ∃ u2, findByUsername (login baseState johnLoginReq 10 "1.2.3.4").1.users "john"
        = some u2 ∧
      u2.lastLoginTime = some 10 ∧
      is_recent 10 10 = true ∧
      u2.lastLoginIp = some "1.2.3.4" ∧ "1.2.3.4" ≠ "" :=
  login_success_sets_last_login baseState johnLoginReq 10 "1.2.3.4"
    "john" "thisisjohnspw" johnUser rfl rfl rfl rfl rfl (by decide)

/-- C9: a successful logout stamps the Profile's last-logout fields with
the time of the call (within the `is_recent` tolerance) and the client
IP, so the IP is non-null; and any subsequent login — successful or not —
leaves the Profile table, hence both last-logout fields, unchanged. -/
theorem logout_sets_last_logout_and_login_frame
    (st : SysState) (now : Nat) (ip : String) (uid : Nat) (prof : Profile)
    (hsess : st.session = Session.authenticated uid)
    (hfind : findProfile st.profiles uid = some prof)
    (hip : ip ≠ "") :
    (logout st now ip).2 = jsonResponse Err.success ∧
    (∃ pr2, findProfile (logout st now ip).1.profiles uid = some pr2 ∧
      pr2.lastLogoutTime = some now ∧
      is_recent now now = true ∧
      pr2.lastLogoutIp = some ip ∧ pr2.lastLogoutIp ≠ none ∧ ip ≠ "") ∧
    (∀ req now2 ip2,
      (login (logout st now ip).1 req now2 ip2).1.profiles
        = (logout st now ip).1.profiles) := by
  have hlogout : logout st now ip =
      ({ st with profiles := setLastLogout st.profiles uid now ip,
                 session := Session.anonymous },
       jsonResponse Err.success) := by
    unfold logout
    rw [hsess]
  refine ⟨by rw [hlogout], ?_, ?_⟩
  · refine ⟨{ prof with lastLogoutTime := some now, lastLogoutIp := some ip },
            ?_, rfl, ?_, rfl, by simp, hip⟩
    · simp only [hlogout]
      rw [findProfile_setLastLogout, hfind]
      rfl
    · simp only [is_recent, decide_eq_true_eq]
      omega
  · intro req now2 ip2
    exact login_preserves_profiles _ req now2 ip2

/-- Witness for C9: john's session logs out at time 20 from 1.2.3.4. -/
theorem logout_sets_last_logout_and_login_frame_witness :
    (logout authState 20 "1.2.3.4").2 = jsonResponse Err.success ∧
    (∃ pr2, findProfile (logout authState 20 "1.2.3.4").1.profiles 1 = some pr2 ∧
      pr2.lastLogoutTime = some 20 ∧
      is_recent 20 20 = true ∧
      pr2.lastLogoutIp = some "1.2.3.4" ∧ pr2.lastLogoutIp ≠ none ∧
      "1.2.3.4" ≠ "") ∧
    (∀ req now2 ip2,
      (login (logout authState 20 "1.2.3.4").1 req now2 ip2).1.profiles
        = (logout authState 20 "1.2.3.4").1.profiles) :=
  logout_sets_last_logout_and_login_frame authState 20 "1.2.3.4" 1 johnProfile
    rfl rfl (by decide)

/-- C10: the persistent User model of `login/models.py` declares the
username column unique with a 128-character cap and the password column
with a 256-character cap; a string fits a column exactly when it is
within the declared cap. -/
theorem login_user_model_constraints :
    loginUser_username_field.unique = true ∧
    loginUser_username_field.max_length = 128 ∧
    loginUser_password_field.max_length = 256 ∧
    (∀ s : String,
      loginUser_username_field.accepts s = decide (s.length ≤ 128)) ∧
    (∀ s : String,
      loginUser_password_field.accepts s = decide (s.length ≤ 256)) :=
  ⟨rfl, rfl, rfl, fun _ => rfl, fun _ => rfl⟩

end BeTest
